import Mathlib

/-!
Verification development for the perk-api LLM orchestration core
(src/services/service.js, src/services/chatbot/llmOrchestrator.js,
src/unnamed/part_005, src/unnamed/part_006).

The JavaScript source is shallowly embedded: JSON values become the
inductive type `Json` (numeric literals are modelled as integers, which
covers every numeral appearing in the orchestration protocol), the LLM
provider becomes an oracle function from message transcripts to raw text,
the knowledge store and embedding provider become explicit data
(lists of records with rational embedding vectors), and `Date.now()` /
`toISOString()` become explicit parameters.  Fallible JavaScript code
(JSON.parse) is modelled with `Option`; all definitions are executable
and structurally recursive (fuelled where needed) so concrete runs
evaluate by `rfl` / `decide`.
-/

mutual

/-- JSON values as produced by JSON.parse.  Numeric literals are modelled
as integers; no numeral in the orchestration protocol is fractional.
Arrays and objects use the bespoke mutual list types `JsonArr` /
`JsonObj` so that equality and recursion stay structural. -/
inductive Json where
  | null : Json
  | bool (b : Bool) : Json
  | num (n : Int) : Json
  | str (s : String) : Json
  | arr (xs : JsonArr) : Json
  | obj (fields : JsonObj) : Json
deriving DecidableEq

/-- List of JSON values (array contents). -/
inductive JsonArr where
  | nil : JsonArr
  | cons (hd : Json) (tl : JsonArr) : JsonArr
deriving DecidableEq

/-- List of key/value pairs (object contents, in insertion order). -/
inductive JsonObj where
  | nil : JsonObj
  | cons (k : String) (v : Json) (tl : JsonObj) : JsonObj
deriving DecidableEq

end

/-- Build array contents from a Lean list. -/
def JsonArr.ofList : List Json → JsonArr
  | [] => .nil
  | x :: t => .cons x (JsonArr.ofList t)

/-- Build object contents from a Lean association list. -/
def JsonObj.ofList : List (String × Json) → JsonObj
  | [] => .nil
  | (k, v) :: t => .cons k v (JsonObj.ofList t)

/-- Array value from a Lean list. -/
def Json.arrL (xs : List Json) : Json :=
  .arr (JsonArr.ofList xs)

/-- Object value from a Lean association list. -/
def Json.objL (fs : List (String × Json)) : Json :=
  .obj (JsonObj.ofList fs)

/-- Lookup of a key in object contents (first occurrence, as in JavaScript
property access on the parsed object). -/
def JsonObj.lookup : JsonObj → String → Option Json
  | .nil, _ => none
  | .cons k v t, key => if k = key then some v else JsonObj.lookup t key

/-- Non-throwing part of JavaScript property access `j.k`: the property
value on an object, `undefined` (`none`) on a primitive other than null.
Used only where the accessed value is already known not to be null; the
full access semantics, including the TypeError thrown on null, is
`Json.getProp`. -/
def Json.get? (j : Json) (k : String) : Option Json :=
  match j with
  | .obj fields => fields.lookup k
  | _ => none

/-- JavaScript property access `j.k` on a parsed decision: accessing any
property of null throws TypeError (modelled as `none`); on every other
value the access yields the property value or `undefined`
(`some (j.get? k)`). -/
def Json.getProp (j : Json) (k : String) : Option (Option Json) :=
  match j with
  | .null => none
  | _ => some (j.get? k)

/-- On a non-null value, property access does not throw and agrees with
the lookup component. -/
theorem Json.getProp_of_ne_null {j : Json} (k : String) (h : j ≠ Json.null) :
    j.getProp k = some (j.get? k) := by
  cases j with
  | null => exact absurd rfl h
  | bool b => rfl
  | num n => rfl
  | str s => rfl
  | arr xs => rfl
  | obj fields => rfl

/-- JavaScript truthiness of a JSON value (`Boolean(v)`). -/
def jsTruthy : Json → Bool
  | .null => false
  | .bool b => b
  | .num n => n != 0
  | .str s => s != ""
  | .arr _ => true
  | .obj _ => true

/-- JavaScript `v || d` for a possibly-absent value `v` (absent =
`undefined`, which is falsy). -/
def jsOr (v : Option Json) (d : Json) : Json :=
  match v with
  | some x => if jsTruthy x then x else d
  | none => d

/-- Whitespace trimmed by the JavaScript method String.prototype.trim
(ASCII part; the claims only exercise ASCII whitespace). -/
def isJsWs (c : Char) : Bool :=
  c = ' ' || c = '\t' || c = '\n' || c = '\r' || c = '\x0b' || c = '\x0c'

/-- Embedding of `s.trim()` at the character-list level. -/
def jsTrimL (l : List Char) : List Char :=
  ((l.dropWhile isJsWs).reverse.dropWhile isJsWs).reverse

/-- Embedding of `s.trim()`. -/
def jsTrim (s : String) : String :=
  ⟨jsTrimL s.data⟩

/-- Helper for the think-block regex: find the first occurrence of
`</think>` and return what follows it, or `none` if absent. -/
def dropThinkClose : List Char → Option (List Char)
  | [] => none
  | c :: rest =>
    if ("</think>").data.isPrefixOf (c :: rest) then some ((c :: rest).drop 8)
    else dropThinkClose rest

/-- Embedding of `raw.replace(/<think>[\s\S]*?<\/think>/g, "")`: scan left
to right; at each position where `<think>` starts and a later `</think>`
exists, delete through the first such `</think>` and continue after it
(the lazy quantifier); an unclosed `<think>` is left untouched (and then
no later occurrence can match either, since no `</think>` remains). -/
def stripThinkL : Nat → List Char → List Char
  | 0, l => l
  | _ + 1, [] => []
  | fuel + 1, c :: rest =>
    if ("<think>").data.isPrefixOf (c :: rest) then
      match dropThinkClose ((c :: rest).drop 7) with
      | some after => stripThinkL fuel after
      | none => c :: rest
    else c :: stripThinkL fuel rest

/-- Embedding of the think-stripping regex replace at the string level. -/
def stripThink (s : String) : String :=
  ⟨stripThinkL s.data.length s.data⟩

/-- Embedding of `cleaned.match(/\x7b[\s\S]*\x7d/)`: the (greedy) match is
the substring from the first opening brace through the last closing brace,
provided a closing brace occurs after the first opening brace. -/
def braceMatchL (l : List Char) : Option (List Char) :=
  let f := l.dropWhile (fun c => c != '{')
  let b := f.reverse.dropWhile (fun c => c != '}')
  if f.isEmpty || b.isEmpty then none else some b.reverse

/-- Hexadecimal digit value, for \uXXXX escapes. -/
def hexVal (c : Char) : Option Nat :=
  if '0' ≤ c && c ≤ '9' then some (c.toNat - 48)
  else if 'a' ≤ c && c ≤ 'f' then some (c.toNat - 87)
  else if 'A' ≤ c && c ≤ 'F' then some (c.toNat - 55)
  else none

/-- JSON string-literal body parser (after the opening quote), handling
the JSON escape sequences; returns the decoded string and the remainder
after the closing quote. -/
def parseStrAux : List Char → List Char → Option (String × List Char)
  | [], _ => none
  | c :: rest, acc =>
    if c = '"' then some (⟨acc.reverse⟩, rest)
    else if c = '\\' then
      match rest with
      | [] => none
      | e :: rest2 =>
        if e = '"' then parseStrAux rest2 ('"' :: acc)
        else if e = '\\' then parseStrAux rest2 ('\\' :: acc)
        else if e = '/' then parseStrAux rest2 ('/' :: acc)
        else if e = 'n' then parseStrAux rest2 ('\n' :: acc)
        else if e = 't' then parseStrAux rest2 ('\t' :: acc)
        else if e = 'r' then parseStrAux rest2 ('\r' :: acc)
        else if e = 'b' then parseStrAux rest2 ('\x08' :: acc)
        else if e = 'f' then parseStrAux rest2 ('\x0c' :: acc)
        else if e = 'u' then
          match rest2 with
          | h1 :: h2 :: h3 :: h4 :: rest3 =>
            match hexVal h1, hexVal h2, hexVal h3, hexVal h4 with
            | some a, some b, some c3, some d =>
              parseStrAux rest3 (Char.ofNat (((a * 16 + b) * 16 + c3) * 16 + d) :: acc)
            | _, _, _, _ => none
          | _ => none
        else none
    else parseStrAux rest (c :: acc)

/-- Numeric value of a digit run. -/
def digitsToNat (l : List Char) : Nat :=
  l.foldl (fun a c => a * 10 + (c.toNat - 48)) 0

/-- JSON numeral parser (integer part; the protocol uses only integer
numerals). -/
def parseNum (l : List Char) : Option (Json × List Char) :=
  match l with
  | '-' :: rest =>
    let ds := rest.takeWhile Char.isDigit
    let rem := rest.dropWhile Char.isDigit
    if ds.isEmpty then none else some (.num (-(digitsToNat ds : Int)), rem)
  | _ =>
    let ds := l.takeWhile Char.isDigit
    let rem := l.dropWhile Char.isDigit
    if ds.isEmpty then none else some (.num (digitsToNat ds : Int), rem)

/-- JSON insignificant whitespace. -/
def isJsonWs (c : Char) : Bool :=
  c = ' ' || c = '\t' || c = '\n' || c = '\r'

/-- Skip JSON insignificant whitespace. -/
def skipWs (l : List Char) : List Char :=
  l.dropWhile isJsonWs

/-- Task tag for the single fuelled JSON parsing loop: a value, the tail
of an array, or the tail of an object. -/
inductive PTask where
  | val : PTask
  | elems (acc : List Json) : PTask
  | fields (acc : List (String × Json)) : PTask

/-- Fuelled recursive-descent JSON parser (embedding of JSON.parse on the
grammar the orchestration protocol uses; numerals integer-only).  Returns
the parsed value and the unconsumed remainder. -/
def parseF : Nat → PTask → List Char → Option (Json × List Char)
  | 0, _, _ => none
  | fuel + 1, .val, input =>
    match skipWs input with
    | [] => none
    | c :: rest =>
      if c = 'n' then
        match rest with
        | 'u' :: 'l' :: 'l' :: r => some (.null, r)
        | _ => none
      else if c = 't' then
        match rest with
        | 'r' :: 'u' :: 'e' :: r => some (.bool true, r)
        | _ => none
      else if c = 'f' then
        match rest with
        | 'a' :: 'l' :: 's' :: 'e' :: r => some (.bool false, r)
        | _ => none
      else if c = '"' then
        match parseStrAux rest [] with
        | some (s, r) => some (.str s, r)
        | none => none
      else if c = '[' then
        match skipWs rest with
        | ']' :: r2 => some (.arrL [], r2)
        | _ => parseF fuel (.elems []) rest
      else if c = '{' then
        match skipWs rest with
        | '}' :: r2 => some (.objL [], r2)
        | _ => parseF fuel (.fields []) rest
      else if c = '-' || c.isDigit then parseNum (c :: rest)
      else none
  | fuel + 1, .elems acc, input =>
    match parseF fuel .val input with
    | some (v, rest) =>
      match skipWs rest with
      | ',' :: r2 => parseF fuel (.elems (acc ++ [v])) r2
      | ']' :: r2 => some (.arrL (acc ++ [v]), r2)
      | _ => none
    | none => none
  | fuel + 1, .fields acc, input =>
    match skipWs input with
    | '"' :: rest =>
      match parseStrAux rest [] with
      | some (k, r1) =>
        match skipWs r1 with
        | ':' :: r2 =>
          match parseF fuel .val r2 with
          | some (v, r3) =>
            match skipWs r3 with
            | ',' :: r4 => parseF fuel (.fields (acc ++ [(k, v)])) r4
            | '}' :: r4 => some (.objL (acc ++ [(k, v)]), r4)
            | _ => none
          | none => none
        | _ => none
      | none => none
    | _ => none

/-- Embedding of JSON.parse on a character list: parse one value and
require only whitespace to remain. -/
def jsonParseL (l : List Char) : Option Json :=
  match parseF (2 * l.length + 4) PTask.val l with
  | some (v, rest) => if (skipWs rest).isEmpty then some v else none
  | none => none

/-- Embedding of JSON.parse. -/
def jsonParse (s : String) : Option Json :=
  jsonParseL s.data

/-- Hexadecimal digit character (lowercase, as JSON.stringify emits). -/
def hexDigitChar (n : Nat) : Char :=
  if n < 10 then Char.ofNat (48 + n) else Char.ofNat (87 + n)

/-- JSON.stringify escaping of one character inside a string literal. -/
def escChar (c : Char) : String :=
  if c = '"' then "\\\""
  else if c = '\\' then "\\\\"
  else if c = '\n' then "\\n"
  else if c = '\t' then "\\t"
  else if c = '\r' then "\\r"
  else if c = '\x08' then "\\b"
  else if c = '\x0c' then "\\f"
  else if c.toNat < 32 then
    "\\u00" ++ ⟨[hexDigitChar (c.toNat / 16), hexDigitChar (c.toNat % 16)]⟩
  else ⟨[c]⟩

/-- JSON.stringify of a string value. -/
def quoteStr (s : String) : String :=
  "\"" ++ String.join (s.data.map escChar) ++ "\""

mutual

/-- Embedding of JSON.stringify. -/
def jsonStringify : Json → String
  | .null => "null"
  | .bool b => if b then "true" else "false"
  | .num n => toString n
  | .str s => quoteStr s
  | .arr xs => "[" ++ stringifyArr xs ++ "]"
  | .obj fields => "\x7b" ++ stringifyObj fields ++ "\x7d"

/-- Comma-separated serialization of array contents. -/
def stringifyArr : JsonArr → String
  | .nil => ""
  | .cons h .nil => jsonStringify h
  | .cons h (.cons h2 t) => jsonStringify h ++ "," ++ stringifyArr (.cons h2 t)

/-- Comma-separated serialization of object contents. -/
def stringifyObj : JsonObj → String
  | .nil => ""
  | .cons k v .nil => quoteStr k ++ ":" ++ jsonStringify v
  | .cons k v (.cons k2 v2 t) =>
    quoteStr k ++ ":" ++ jsonStringify v ++ "," ++ stringifyObj (.cons k2 v2 t)

end

/-- One conversation turn, as sent to the Hugging Face chat completion. -/
structure Msg where
  role : String
  content : String
deriving DecidableEq

/-- The fixed orchestration policy prompt of src/services/service.js. -/
def SYSTEM_PROMPT : String :=
  "You are a helpful learning assistant for the Web Brain Project.\nYour goal is to help users discover learning materials and learning paths.\n\nWhen the user asks about a topic, you should search for relevant materials using the search_materials tool.\nWhen no relevant materials exist, you can request new materials to be added using request_material_addition.\n\nYou MUST respond with valid JSON in one of these formats:\n\n1. Final response (when you have an answer for the user):\n\x7b\"type\":\"final\",\"message\":\"<your response>\",\"relatedMaterials\":[\x7b\"nodeId\":\"...\",\"name\":\"...\",\"type\":\"skill|url\"\x7d],\"suggestedActions\":[\"action1\",\"action2\"]\x7d\n\n2. Tool call (when you need to search or request materials):\n\x7b\"type\":\"tool_call\",\"tool\":\"search_materials\",\"args\":\x7b\"query\":\"<search query>\",\"limit\":5\x7d\x7d\nor\n\x7b\"type\":\"tool_call\",\"tool\":\"request_material_addition\",\"args\":\x7b\"topic\":\"<topic>\",\"user_context\":\"<context>\"\x7d\x7d\n\nAlways respond with valid JSON only. No markdown, no extra text."

/-- The tool result injected into the second round: the tool and args
destructured from the first decision (possibly absent fields, modelled as
`Option`) and the tool output. -/
structure ToolInj where
  tool : Option Json
  args : Option Json
  output : Json

/-- JSON.stringify applied to the object literal
`(type: "tool_call", tool, args)`; JSON.stringify drops fields whose
value is undefined. -/
def reserializeToolCall (tool args : Option Json) : Json :=
  Json.objL ([("type", Json.str ("tool_call"))] ++
    (match tool with | some t => [("tool", t)] | none => []) ++
    (match args with | some a => [("args", a)] | none => []))

/-- JavaScript template-literal coercion of a possibly-undefined value,
as used in backtick strings; the orchestration claims only exercise the
string case. -/
def jsTemplateVal : Option Json → String
  | none => "undefined"
  | some Json.null => "null"
  | some (Json.bool b) => if b then "true" else "false"
  | some (Json.num n) => toString n
  | some (Json.str s) => s
  | some (Json.arr _) => ""
  | some (Json.obj _) => "[object Object]"

/-- Embedding of buildMessages (src/services/service.js lines 464 to 506):
system prompt, optional custom-instructions system turn (JavaScript
truthiness: present and non-empty), the history turns when the request
carried an array, the user turn, and the two injected tool-result turns
when a tool result is supplied. -/
def buildMessages (userMessage : String) (conversationHistory : Option (List Msg))
    (customInstructions : Option String) (toolResult : Option ToolInj) : List Msg :=
  let messages := [Msg.mk ("system") SYSTEM_PROMPT]
  let messages :=
    match customInstructions with
    | some c =>
      if c = "" then messages
      else messages ++ [Msg.mk ("system") ("Additional instructions: " ++ c)]
    | none => messages
  let messages :=
    match conversationHistory with
    | some h => messages ++ h.map (fun m => Msg.mk m.role m.content)
    | none => messages
  let messages := messages ++ [Msg.mk ("user") userMessage]
  match toolResult with
  | some tr =>
    messages ++
      [Msg.mk ("assistant") (jsonStringify (reserializeToolCall tr.tool tr.args)),
       Msg.mk ("user")
         ("Tool result for " ++ jsTemplateVal tr.tool ++ ": " ++ jsonStringify tr.output)]
  | none => messages

/-- The try-block shared by every parseLlmResponse version in the
repository: strip think blocks, trim, extract the first-brace-to-last-
brace substring when present and JSON.parse it, otherwise JSON.parse the
trimmed text; `none` models the thrown exception. -/
def parseLlmTry (raw : String) : Option Json :=
  let cleaned := jsTrimL (stripThinkL raw.data.length raw.data)
  match braceMatchL cleaned with
  | some sub => jsonParseL sub
  | none => jsonParseL cleaned

namespace Service

/-- Catch-branch value of parseLlmResponse in src/services/service.js
(lines 547 to 565): the raw text is returned as a final message. -/
def rawFallback (raw : String) : Json :=
  Json.objL [("type", Json.str ("final")), ("message", Json.str raw),
    ("relatedMaterials", Json.arrL []), ("suggestedActions", Json.arrL [])]

/-- Embedding of parseLlmResponse from src/services/service.js. -/
def parseLlmResponse (raw : String) : Json :=
  (parseLlmTry raw).getD (rawFallback raw)

end Service

namespace Orchestrator

/-- The fixed apology text of the catch branch of parseLlmResponse in
src/unnamed/part_005 (and part_003). -/
def apologyText : String :=
  "I apologize, but I encountered an error processing your request. The administrators have been notified and will investigate this issue. Please try again later or contact support if the problem persists."

/-- Catch-branch value of parseLlmResponse in src/unnamed/part_005
(lines 176 to 205): the fixed apology final decision. -/
def apologyFallback : Json :=
  Json.objL [("type", Json.str ("final")), ("message", Json.str apologyText),
    ("relatedMaterials", Json.arrL []),
    ("suggestedActions", Json.arrL [Json.str ("try_again"), Json.str ("contact_support")])]

/-- Embedding of parseLlmResponse from src/unnamed/part_005. -/
def parseLlmResponse (raw : String) : Json :=
  (parseLlmTry raw).getD apologyFallback

end Orchestrator

/-- Embedding of executeTool (src/services/service.js lines 570 to 633).
The search_materials branch is parameterized by the semantic-search
collaborator (store plus embedding pipeline); the request branch returns
the queued acknowledgement with the time-based identifier; any other tool
value produces the error payload. -/
def executeTool (search : Option Json → Json) (nowMs : Nat)
    (tool : Option Json) (args : Option Json) : Json :=
  if tool = some (Json.str ("search_materials")) then search args
  else if tool = some (Json.str ("request_material_addition")) then
    Json.objL [("requestId", Json.str ("req_" ++ toString nowMs)),
      ("status", Json.str ("queued"))]
  else Json.objL [("error", Json.str ("Unknown tool: " ++ jsTemplateVal tool))]

/-- The request body of POST /chatbot/chat, with `message` kept as an
arbitrary JSON value (or absent) so that the validation path is total. -/
structure ChatRequestBody where
  message : Option Json
  sessionId : Option String
  conversationHistory : Option (List Msg)
  customInstructions : Option String

/-- An error response body, carrying its distinguishing error string:
"message is required and must be a string" for the 400 validation exit,
"Chat request failed" for the 500 catch-all exit. -/
structure ErrorResp where
  error : String
deriving DecidableEq

/-- The HTTP 200 response body built by chatbotChat. -/
structure ChatResponseR where
  message : Json
  relatedMaterials : Json
  suggestedActions : Json
  sessionId : String
  lastUpdated : String
deriving DecidableEq

/-- Observable outcome of one chatbotChat run: the response (client error
or chat response) together with the transcripts sent to the LLM, in
order, and the executed tool calls, in order. -/
structure ChatOutcome where
  result : Sum ErrorResp ChatResponseR
  llmCalls : List (List Msg)
  toolCalls : List (Option Json × Option Json)
deriving DecidableEq

/-- Response construction of chatbotChat (lines 697 to 706): each field
defaulted through JavaScript `||`.  The program reaches this builder only
after a successful property access on the parsed decision, so the
decision here is never null and `Json.get?` is the full access
semantics. -/
def mkChatResponse (parsed : Json) (sessionId : Option String)
    (nowMs : Nat) (nowIso : String) : ChatResponseR :=
  { message := jsOr (parsed.get? ("message")) (Json.str (""))
    relatedMaterials := jsOr (parsed.get? ("relatedMaterials")) (Json.arrL [])
    suggestedActions := jsOr (parsed.get? ("suggestedActions")) (Json.arrL [])
    sessionId :=
      match sessionId with
      | some s => if s = "" then "session_" ++ toString nowMs else s
      | none => "session_" ++ toString nowMs
    lastUpdated := nowIso }

/-- Embedding of chatbotChat (src/services/service.js lines 638 to 725).
The LLM provider is the oracle `llm` from transcripts to raw text; the
tool executor is the function `toolExec`; `nowMs` and `nowIso` stand for
Date.now() and the ISO timestamp.  The outcome records the transcripts of
every LLM call and every executed tool call.  `Sum.inl` covers the
non-200 exits: the 400 validation body, and the 500 body
(error: "Chat request failed") produced by the catch at lines 709 to 724
when property access on a parsed decision throws — every `parsed.type`
access (the logs at lines 668 and 694 and the branch test at line 671)
throws TypeError exactly when the parsed decision is the bare JSON null,
which the raw reply "null" produces. -/
def chatbotChat (llm : List Msg → String) (toolExec : Option Json → Option Json → Json)
    (nowMs : Nat) (nowIso : String) (body : ChatRequestBody) : ChatOutcome :=
  match body.message with
  | some (Json.str s) =>
    if jsTrim s = "" then
      ⟨.inl ⟨"message is required and must be a string"⟩, [], []⟩
    else
      let msgs1 := buildMessages s body.conversationHistory body.customInstructions none
      let raw1 := llm msgs1
      let parsed1 := Service.parseLlmResponse raw1
      match parsed1.getProp ("type") with
      | none => ⟨.inl ⟨"Chat request failed"⟩, [msgs1], []⟩
      | some t1 =>
        if t1 = some (Json.str ("tool_call")) then
          let tool := parsed1.get? ("tool")
          let args := parsed1.get? ("args")
          let toolOutput := toolExec tool args
          let msgs2 := buildMessages s body.conversationHistory body.customInstructions
            (some ⟨tool, args, toolOutput⟩)
          let raw2 := llm msgs2
          let parsed2 := Service.parseLlmResponse raw2
          match parsed2.getProp ("type") with
          | none => ⟨.inl ⟨"Chat request failed"⟩, [msgs1, msgs2], [(tool, args)]⟩
          | some _ =>
            ⟨.inr (mkChatResponse parsed2 body.sessionId nowMs nowIso),
              [msgs1, msgs2], [(tool, args)]⟩
        else
          ⟨.inr (mkChatResponse parsed1 body.sessionId nowMs nowIso), [msgs1], []⟩
  | _ => ⟨.inl ⟨"message is required and must be a string"⟩, [], []⟩

/-- A node row returned by the store query (id, name, label). -/
structure SNode where
  id : String
  name : String
  type : String
deriving DecidableEq

/-- A store record carrying a node and its stored embedding vector
(floats idealized as rationals). -/
structure EmbRecord where
  node : SNode
  embedding : List ℚ

/-- One scored search result. -/
structure ScoredNode where
  node : SNode
  similarity : ℚ
deriving DecidableEq

/-- Embedding of the similarity reduce:
`nodeEmbedding.reduce((sum, val, idx) => sum + val * queryEmbedding[idx], 0)`. -/
def dotReduce (emb q : List ℚ) : ℚ :=
  (List.zipWith (fun a b => a * b) emb q).sum

/-- Stable descending insertion: `x` is placed before the first element
whose key is at most `key x`.  Since `x` originates earlier in the input
than everything already sorted, equal keys keep original order, exactly
as the ECMAScript stable sort with comparator
`(a, b) => b.similarity - a.similarity`. -/
def insertByDesc (key : α → ℚ) (x : α) : List α → List α
  | [] => [x]
  | y :: ys => if key y ≤ key x then x :: y :: ys else y :: insertByDesc key x ys

/-- Stable descending sort by key (insertion sort; ECMAScript sort is
specified stable, and any two stable sorts under the same comparator
agree). -/
def sortByDesc (key : α → ℚ) : List α → List α
  | [] => []
  | x :: xs => insertByDesc key x (sortByDesc key xs)

/-- Embedding of the scoring pipeline shared by chatbotSearch, the
search_materials branch of executeTool (src/services/service.js lines
608 to 621) and searchNodesBySimilarity (src/unnamed/part_006 lines 52
to 66): score every record by the dot product with the query embedding,
sort descending by score (stable), truncate to `limit`. -/
def searchNodesBySimilarity (records : List EmbRecord) (queryEmbedding : List ℚ)
    (limit : Nat) : List ScoredNode :=
  let scored := records.map (fun r => ScoredNode.mk r.node (dotReduce r.embedding queryEmbedding))
  (sortByDesc ScoredNode.similarity scored).take limit

theorem mem_insertByDesc {key : α → ℚ} {x a : α} {l : List α} :
    a ∈ insertByDesc key x l ↔ a = x ∨ a ∈ l := by
  induction l with
  | nil => simp [insertByDesc]
  | cons y ys ih =>
    by_cases h : key y ≤ key x
    · simp [insertByDesc, h]
    · simp only [insertByDesc, if_neg h, List.mem_cons, ih]
      tauto

theorem mem_sortByDesc {key : α → ℚ} {a : α} {l : List α} :
    a ∈ sortByDesc key l ↔ a ∈ l := by
  induction l with
  | nil => simp [sortByDesc]
  | cons y ys ih => simp [sortByDesc, mem_insertByDesc, ih]

theorem pairwise_insertByDesc {key : α → ℚ} {R : α → α → Prop} {x : α} {l : List α}
    (hmono : ∀ a b, R a b → key b ≤ key a)
    (hbefore : ∀ b ∈ l, key b ≤ key x → R x b)
    (hafter : ∀ b ∈ l, key x < key b → R b x)
    (hl : l.Pairwise R) : (insertByDesc key x l).Pairwise R := by
  induction l with
  | nil => simp [insertByDesc]
  | cons y ys ih =>
    rcases List.pairwise_cons.mp hl with ⟨hy, hys⟩
    by_cases h : key y ≤ key x
    · rw [insertByDesc, if_pos h]
      refine List.pairwise_cons.mpr ⟨?_, hl⟩
      intro b hb
      rcases List.mem_cons.mp hb with rfl | hb2
      · exact hbefore b (by simp) h
      · exact hbefore b hb (le_trans (hmono y b (hy b hb2)) h)
    · rw [insertByDesc, if_neg h]
      refine List.pairwise_cons.mpr ⟨?_, ?_⟩
      · intro b hb
        rcases mem_insertByDesc.mp hb with rfl | hb2
        · exact hafter y (by simp) (lt_of_not_le h)
        · exact hy b hb2
      · exact ih (fun b hb hkb => hbefore b (by simp [hb]) hkb)
          (fun b hb hkb => hafter b (by simp [hb]) hkb) hys

theorem pairwise_sortByDesc_le {key : α → ℚ} (l : List α) :
    (sortByDesc key l).Pairwise (fun a b => key b ≤ key a) := by
  induction l with
  | nil => simp [sortByDesc]
  | cons y ys ih =>
    exact pairwise_insertByDesc (fun _ _ h => h)
      (fun b _ hb => hb) (fun b _ hb => le_of_lt hb) ih

theorem pairwise_sortByDesc_lex {key : β → ℚ} (l : List (Nat × β))
    (hidx : l.Pairwise (fun p q => p.1 < q.1)) :
    (sortByDesc (fun p => key p.2) l).Pairwise
      (fun p q => key q.2 < key p.2 ∨ (key p.2 = key q.2 ∧ p.1 < q.1)) := by
  induction l with
  | nil => simp [sortByDesc]
  | cons y ys ih =>
    rcases List.pairwise_cons.mp hidx with ⟨hy, hys⟩
    refine pairwise_insertByDesc ?_ ?_ ?_ (ih hys)
    · rintro a b (h | ⟨h, _⟩)
      · exact le_of_lt h
      · exact le_of_eq h.symm
    · intro b hb hkb
      rcases lt_or_eq_of_le hkb with h | h
      · exact Or.inl h
      · exact Or.inr ⟨h.symm, hy b (mem_sortByDesc.mp hb)⟩
    · intro b _ hkb
      exact Or.inl hkb

theorem map_snd_insertByDesc {key : β → ℚ} (x : Nat × β) (l : List (Nat × β)) :
    (insertByDesc (fun p => key p.2) x l).map Prod.snd =
      insertByDesc key x.2 (l.map Prod.snd) := by
  induction l with
  | nil => simp [insertByDesc]
  | cons y ys ih =>
    by_cases h : key y.2 ≤ key x.2
    · simp [insertByDesc, h]
    · simp [insertByDesc, h, ih]

theorem map_snd_sortByDesc {key : β → ℚ} (l : List (Nat × β)) :
    (sortByDesc (fun p => key p.2) l).map Prod.snd = sortByDesc key (l.map Prod.snd) := by
  induction l with
  | nil => simp [sortByDesc]
  | cons y ys ih => simp [sortByDesc, map_snd_insertByDesc, ih]

theorem pairwise_fst_lt_enum (l : List α) :
    l.enum.Pairwise (fun p q => p.1 < q.1) := by
  have h1 : (l.enum.map Prod.fst).Pairwise (fun a b => a < b) := by
    rw [List.enum_map_fst]
    exact List.pairwise_lt_range l.length
  exact (List.pairwise_map.mp h1)

/-- Shared helper: closed form of the buildMessages transcript. -/
theorem buildMessages_eq (u : String) (hist : Option (List Msg))
    (cust : Option String) (tr : Option ToolInj) :
    buildMessages u hist cust tr =
      [Msg.mk ("system") SYSTEM_PROMPT] ++
      (match cust with
       | some c => if c = "" then [] else [Msg.mk ("system") ("Additional instructions: " ++ c)]
       | none => []) ++
      hist.getD [] ++
      [Msg.mk ("user") u] ++
      (match tr with
       | some t =>
         [Msg.mk ("assistant") (jsonStringify (reserializeToolCall t.tool t.args)),
          Msg.mk ("user")
            ("Tool result for " ++ jsTemplateVal t.tool ++ ": " ++ jsonStringify t.output)]
       | none => []) := by
  cases cust with
  | none =>
    cases hist with
    | none => cases tr <;> simp [buildMessages]
    | some h => cases tr <;> simp [buildMessages]
  | some c =>
    by_cases hc : c = "" <;>
      (cases hist with
       | none => cases tr <;> simp [buildMessages, hc]
       | some h => cases tr <;> simp [buildMessages, hc])

/-- Shared helper: supplying a tool result appends exactly the two
injected turns to the transcript built without one. -/
theorem buildMessages_some_toolResult (u : String) (hist : Option (List Msg))
    (cust : Option String) (t : ToolInj) :
    buildMessages u hist cust (some t) =
      buildMessages u hist cust none ++
        [Msg.mk ("assistant") (jsonStringify (reserializeToolCall t.tool t.args)),
         Msg.mk ("user")
           ("Tool result for " ++ jsTemplateVal t.tool ++ ": " ++ jsonStringify t.output)] := by
  rw [buildMessages_eq, buildMessages_eq]
  simp

/-- C7: buildMessages is a pure function of its inputs whose output is
exactly, in this order: the fixed policy system turn; one system turn
"Additional instructions: ..." if and only if customInstructions is
present and non-empty; every history turn in order, role and content
unchanged; one user turn with the user message; and, only when a tool
result is supplied, the two injected tool-result turns. -/
theorem buildMessages_transcript_structure (u : String) (hist : Option (List Msg))
    (cust : Option String) (tr : Option ToolInj) :
    buildMessages u hist cust tr =
      [Msg.mk ("system") SYSTEM_PROMPT] ++
      (match cust with
       | some c => if c = "" then [] else [Msg.mk ("system") ("Additional instructions: " ++ c)]
       | none => []) ++
      hist.getD [] ++
      [Msg.mk ("user") u] ++
      (match tr with
       | some t =>
         [Msg.mk ("assistant") (jsonStringify (reserializeToolCall t.tool t.args)),
          Msg.mk ("user")
            ("Tool result for " ++ jsTemplateVal t.tool ++ ": " ++ jsonStringify t.output)]
       | none => []) :=
  buildMessages_eq u hist cust tr

/-- C5: a request whose message is missing, not a string, or blank is
rejected with the client error before any external call: zero LLM calls
and zero tool executions. -/
theorem chatbotChat_invalid_message_rejected (llm : List Msg → String)
    (toolExec : Option Json → Option Json → Json) (nowMs : Nat) (nowIso : String)
    (body : ChatRequestBody)
    (h : ∀ s : String, body.message = some (Json.str s) → jsTrim s = "") :
    chatbotChat llm toolExec nowMs nowIso body =
      ⟨.inl ⟨"message is required and must be a string"⟩, [], []⟩ := by
  cases hb : body.message with
  | none => simp [chatbotChat, hb]
  | some j =>
    cases j with
    | str s =>
      have hs := h s hb
      simp [chatbotChat, hb, hs]
    | null => simp [chatbotChat, hb]
    | bool b => simp [chatbotChat, hb]
    | num n => simp [chatbotChat, hb]
    | arr xs => simp [chatbotChat, hb]
    | obj fs => simp [chatbotChat, hb]

/-- Witness for C5 at the whitespace-only message "   ". -/
theorem chatbotChat_invalid_message_rejected_witness :
    chatbotChat (fun _ => "") (fun _ _ => Json.null) 0 ("")
      ⟨some (Json.str ("   ")), none, none, none⟩ =
      ⟨.inl ⟨"message is required and must be a string"⟩, [], []⟩ :=
  chatbotChat_invalid_message_rejected _ _ _ _ _
    (by intro s hs; cases hs; decide)

/-- Shared helper: with a valid message and a non-null first decision
that is not a tool_call, chatbotChat takes the single-call path. -/
theorem chatbotChat_final_path (llm : List Msg → String)
    (toolExec : Option Json → Option Json → Json) (nowMs : Nat) (nowIso : String)
    (body : ChatRequestBody) (s : String)
    (hmsg : body.message = some (Json.str s)) (hne : jsTrim s ≠ "")
    (hnn : Service.parseLlmResponse
      (llm (buildMessages s body.conversationHistory body.customInstructions none)) ≠
        Json.null)
    (hnott : ¬((Service.parseLlmResponse
        (llm (buildMessages s body.conversationHistory body.customInstructions none))).get?
          ("type") = some (Json.str ("tool_call")))) :
    chatbotChat llm toolExec nowMs nowIso body =
      ⟨.inr (mkChatResponse
          (Service.parseLlmResponse
            (llm (buildMessages s body.conversationHistory body.customInstructions none)))
          body.sessionId nowMs nowIso),
        [buildMessages s body.conversationHistory body.customInstructions none], []⟩ := by
  unfold chatbotChat
  rw [hmsg]
  simp only [if_neg hne, Json.getProp_of_ne_null _ hnn, if_neg hnott]

/-- Shared helper: with a valid message and a tool_call first decision,
chatbotChat takes the one-tool-round path: both transcripts and the tool
call are recorded, and the result is the 500 error exactly when the
second decision is null (property access throws), otherwise the response
built from the second decision. -/
theorem chatbotChat_tool_path (llm : List Msg → String)
    (toolExec : Option Json → Option Json → Json) (nowMs : Nat) (nowIso : String)
    (body : ChatRequestBody) (s : String)
    (hmsg : body.message = some (Json.str s)) (hne : jsTrim s ≠ "")
    (htype : (Service.parseLlmResponse
        (llm (buildMessages s body.conversationHistory body.customInstructions none))).get?
          ("type") = some (Json.str ("tool_call"))) :
    chatbotChat llm toolExec nowMs nowIso body =
      (let msgs1 := buildMessages s body.conversationHistory body.customInstructions none
      let parsed1 := Service.parseLlmResponse (llm msgs1)
      let tool := parsed1.get? ("tool")
      let args := parsed1.get? ("args")
      let msgs2 := buildMessages s body.conversationHistory body.customInstructions
        (some ⟨tool, args, toolExec tool args⟩)
      let parsed2 := Service.parseLlmResponse (llm msgs2)
      ⟨(match parsed2.getProp ("type") with
        | none => .inl ⟨"Chat request failed"⟩
        | some _ => .inr (mkChatResponse parsed2 body.sessionId nowMs nowIso)),
        [msgs1, msgs2], [(tool, args)]⟩) := by
  have hnn : Service.parseLlmResponse
      (llm (buildMessages s body.conversationHistory body.customInstructions none)) ≠
        Json.null := by
    intro h
    rw [h] at htype
    cases htype
  unfold chatbotChat
  rw [hmsg]
  simp only [if_neg hne, Json.getProp_of_ne_null _ hnn, if_pos htype]
  split <;> rfl

/-- C4: with a non-blank string message and a final-type first decision
(well-typed fields per the data model), chatbotChat makes exactly one LLM
call, executes no tool, and mirrors the decision fields with absent
fields defaulted. -/
theorem chatbotChat_final_decision_mirrors (llm : List Msg → String)
    (toolExec : Option Json → Option Json → Json) (nowMs : Nat) (nowIso : String)
    (body : ChatRequestBody) (s : String) (d : Json)
    (hmsg : body.message = some (Json.str s)) (hne : jsTrim s ≠ "")
    (hd : Service.parseLlmResponse
      (llm (buildMessages s body.conversationHistory body.customInstructions none)) = d)
    (htype : d.get? ("type") = some (Json.str ("final")))
    (hm : d.get? ("message") = none ∨ ∃ m : String, d.get? ("message") = some (Json.str m))
    (hr : d.get? ("relatedMaterials") = none ∨
      ∃ xs : JsonArr, d.get? ("relatedMaterials") = some (Json.arr xs))
    (ha : d.get? ("suggestedActions") = none ∨
      ∃ xs : JsonArr, d.get? ("suggestedActions") = some (Json.arr xs)) :
    (chatbotChat llm toolExec nowMs nowIso body).llmCalls.length = 1 ∧
    (chatbotChat llm toolExec nowMs nowIso body).toolCalls = [] ∧
    ∃ r, (chatbotChat llm toolExec nowMs nowIso body).result = Sum.inr r ∧
      r.message = (d.get? ("message")).getD (Json.str ("")) ∧
      r.relatedMaterials = (d.get? ("relatedMaterials")).getD (Json.arrL []) ∧
      r.suggestedActions = (d.get? ("suggestedActions")).getD (Json.arrL []) := by
  have hnn : Service.parseLlmResponse
      (llm (buildMessages s body.conversationHistory body.customInstructions none)) ≠
        Json.null := by
    rw [hd]
    intro h
    rw [h] at htype
    cases htype
  have hnott : ¬((Service.parseLlmResponse
      (llm (buildMessages s body.conversationHistory body.customInstructions none))).get?
        ("type") = some (Json.str ("tool_call"))) := by
    rw [hd, htype]; decide
  rw [chatbotChat_final_path llm toolExec nowMs nowIso body s hmsg hne hnn hnott, hd]
  refine ⟨rfl, rfl, mkChatResponse d body.sessionId nowMs nowIso, rfl, ?_, ?_, ?_⟩
  · rcases hm with hm | ⟨m, hm⟩
    · simp [mkChatResponse, jsOr, hm]
    · by_cases hm0 : m = ""
      · subst hm0; simp [mkChatResponse, jsOr, hm, jsTruthy]
      · simp [mkChatResponse, jsOr, hm, jsTruthy, hm0]
  · rcases hr with hr | ⟨xs, hr⟩
    · simp [mkChatResponse, jsOr, hr]
    · simp [mkChatResponse, jsOr, hr, jsTruthy]
  · rcases ha with ha | ⟨xs, ha⟩
    · simp [mkChatResponse, jsOr, ha]
    · simp [mkChatResponse, jsOr, ha, jsTruthy]

/-- Witness for C4: a concrete final decision with message "ok" and one
suggested action. -/
theorem chatbotChat_final_decision_mirrors_witness :
    (Service.parseLlmResponse
        ((fun (_ : List Msg) =>
          "\x7b\"type\":\"final\",\"message\":\"ok\",\"relatedMaterials\":[],\"suggestedActions\":[\"a\"]\x7d")
          (buildMessages ("hi") none none none)) =
      Json.objL [("type", Json.str ("final")), ("message", Json.str ("ok")),
        ("relatedMaterials", Json.arrL []),
        ("suggestedActions", Json.arrL [Json.str ("a")])]) ∧
    (chatbotChat
        (fun _ =>
          "\x7b\"type\":\"final\",\"message\":\"ok\",\"relatedMaterials\":[],\"suggestedActions\":[\"a\"]\x7d")
        (fun _ _ => Json.null) 0 ("t0")
        ⟨some (Json.str ("hi")), none, none, none⟩).llmCalls.length = 1 ∧
    (chatbotChat
        (fun _ =>
          "\x7b\"type\":\"final\",\"message\":\"ok\",\"relatedMaterials\":[],\"suggestedActions\":[\"a\"]\x7d")
        (fun _ _ => Json.null) 0 ("t0")
        ⟨some (Json.str ("hi")), none, none, none⟩).toolCalls = [] ∧
    ∃ r, (chatbotChat
        (fun _ =>
          "\x7b\"type\":\"final\",\"message\":\"ok\",\"relatedMaterials\":[],\"suggestedActions\":[\"a\"]\x7d")
        (fun _ _ => Json.null) 0 ("t0")
        ⟨some (Json.str ("hi")), none, none, none⟩).result = Sum.inr r ∧
      r.message = ((Json.objL [("type", Json.str ("final")), ("message", Json.str ("ok")),
        ("relatedMaterials", Json.arrL []),
        ("suggestedActions", Json.arrL [Json.str ("a")])]).get? ("message")).getD (Json.str ("")) ∧
      r.relatedMaterials = ((Json.objL [("type", Json.str ("final")), ("message", Json.str ("ok")),
        ("relatedMaterials", Json.arrL []),
        ("suggestedActions", Json.arrL [Json.str ("a")])]).get? ("relatedMaterials")).getD (Json.arrL []) ∧
      r.suggestedActions = ((Json.objL [("type", Json.str ("final")), ("message", Json.str ("ok")),
        ("relatedMaterials", Json.arrL []),
        ("suggestedActions", Json.arrL [Json.str ("a")])]).get? ("suggestedActions")).getD (Json.arrL []) :=
  ⟨by decide,
   chatbotChat_final_decision_mirrors _ _ _ _ _ ("hi") _ rfl (by decide) (by decide)
     (by decide) (Or.inr ⟨"ok", by decide⟩) (Or.inr ⟨JsonArr.nil, by decide⟩)
     (Or.inr ⟨JsonArr.cons (Json.str ("a")) JsonArr.nil, by decide⟩)⟩

/-- Substring test over character lists (used to state that a response
message does not contain a claimed fallback phrase). -/
def listContainsSub (needle : List Char) : List Char → Bool
  | [] => needle.isEmpty
  | c :: rest => needle.isPrefixOf (c :: rest) || listContainsSub needle rest

/-- C1 counterexample: a run in which both LLM replies parse as
tool_call decisions.  The orchestrator stops after the second call (cap
of two holds) but does not override the non-final second decision with
any fallback message: the response message is the empty string, which
does not contain "unable to complete that request right now". -/
theorem chatbotChat_second_tool_call_no_fallback_message :
    (Service.parseLlmResponse
        ("\x7b\"type\":\"tool_call\",\"tool\":\"search_materials\",\"args\":\x7b\"query\":\"x\",\"limit\":5\x7d\x7d")).get?
        ("type") = some (Json.str ("tool_call")) ∧
    (chatbotChat
        (fun _ =>
          "\x7b\"type\":\"tool_call\",\"tool\":\"search_materials\",\"args\":\x7b\"query\":\"x\",\"limit\":5\x7d\x7d")
        (fun _ _ => Json.objL [("results", Json.arrL [])]) 0 ("t0")
        ⟨some (Json.str ("hi")), some ("s1"), some [], none⟩).llmCalls.length = 2 ∧
    (chatbotChat
        (fun _ =>
          "\x7b\"type\":\"tool_call\",\"tool\":\"search_materials\",\"args\":\x7b\"query\":\"x\",\"limit\":5\x7d\x7d")
        (fun _ _ => Json.objL [("results", Json.arrL [])]) 0 ("t0")
        ⟨some (Json.str ("hi")), some ("s1"), some [], none⟩).result =
      Sum.inr ⟨Json.str (""), Json.arrL [], Json.arrL [], "s1", "t0"⟩ ∧
    listContainsSub ("unable to complete that request right now").data ("").data = false := by
  refine ⟨by decide, by decide, by decide, by decide⟩

/-- C1 (amended): for a tool_call first decision the orchestrator runs
exactly one tool round and exactly one more LLM call — two in total,
never a third — and never overrides a non-final second decision with a
fallback message: when the second decision is the bare JSON null the
property access on it throws and the turn ends in the 500 server error,
and in every other case the HTTP 200 response is built from the second
decision with absent fields defaulted. -/
theorem chatbotChat_two_call_cap (llm : List Msg → String)
    (toolExec : Option Json → Option Json → Json) (nowMs : Nat) (nowIso : String)
    (body : ChatRequestBody) (s : String)
    (hmsg : body.message = some (Json.str s)) (hne : jsTrim s ≠ "")
    (htype : (Service.parseLlmResponse
        (llm (buildMessages s body.conversationHistory body.customInstructions none))).get?
          ("type") = some (Json.str ("tool_call"))) :
    (chatbotChat llm toolExec nowMs nowIso body).llmCalls =
      [buildMessages s body.conversationHistory body.customInstructions none,
       buildMessages s body.conversationHistory body.customInstructions
         (some ⟨(Service.parseLlmResponse
             (llm (buildMessages s body.conversationHistory body.customInstructions none))).get?
               ("tool"),
           (Service.parseLlmResponse
             (llm (buildMessages s body.conversationHistory body.customInstructions none))).get?
               ("args"),
           toolExec
             ((Service.parseLlmResponse
               (llm (buildMessages s body.conversationHistory body.customInstructions none))).get?
                 ("tool"))
             ((Service.parseLlmResponse
               (llm (buildMessages s body.conversationHistory body.customInstructions none))).get?
                 ("args"))⟩)] ∧
    (chatbotChat llm toolExec nowMs nowIso body).toolCalls.length = 1 ∧
    (Service.parseLlmResponse
        (llm (buildMessages s body.conversationHistory body.customInstructions
          (some ⟨(Service.parseLlmResponse
              (llm (buildMessages s body.conversationHistory body.customInstructions none))).get?
                ("tool"),
            (Service.parseLlmResponse
              (llm (buildMessages s body.conversationHistory body.customInstructions none))).get?
                ("args"),
            toolExec
              ((Service.parseLlmResponse
                (llm (buildMessages s body.conversationHistory body.customInstructions none))).get?
                  ("tool"))
              ((Service.parseLlmResponse
                (llm (buildMessages s body.conversationHistory body.customInstructions none))).get?
                  ("args"))⟩))) = Json.null →
      (chatbotChat llm toolExec nowMs nowIso body).result =
        Sum.inl ⟨"Chat request failed"⟩) ∧
    (Service.parseLlmResponse
        (llm (buildMessages s body.conversationHistory body.customInstructions
          (some ⟨(Service.parseLlmResponse
              (llm (buildMessages s body.conversationHistory body.customInstructions none))).get?
                ("tool"),
            (Service.parseLlmResponse
              (llm (buildMessages s body.conversationHistory body.customInstructions none))).get?
                ("args"),
            toolExec
              ((Service.parseLlmResponse
                (llm (buildMessages s body.conversationHistory body.customInstructions none))).get?
                  ("tool"))
              ((Service.parseLlmResponse
                (llm (buildMessages s body.conversationHistory body.customInstructions none))).get?
                  ("args"))⟩))) ≠ Json.null →
      (chatbotChat llm toolExec nowMs nowIso body).result =
        Sum.inr (mkChatResponse
          (Service.parseLlmResponse
            (llm (buildMessages s body.conversationHistory body.customInstructions
              (some ⟨(Service.parseLlmResponse
                  (llm (buildMessages s body.conversationHistory body.customInstructions none))).get?
                    ("tool"),
                (Service.parseLlmResponse
                  (llm (buildMessages s body.conversationHistory body.customInstructions none))).get?
                    ("args"),
                toolExec
                  ((Service.parseLlmResponse
                    (llm (buildMessages s body.conversationHistory body.customInstructions none))).get?
                      ("tool"))
                  ((Service.parseLlmResponse
                    (llm (buildMessages s body.conversationHistory body.customInstructions none))).get?
                      ("args"))⟩))))
          body.sessionId nowMs nowIso)) := by
  rw [chatbotChat_tool_path llm toolExec nowMs nowIso body s hmsg hne htype]
  refine ⟨rfl, rfl, ?_, ?_⟩
  · intro h2
    simp only [h2, Json.getProp]
  · intro h2
    simp only [Json.getProp_of_ne_null _ h2]

/-- Witness for C1 (amended): first reply is a tool call, second reply is
a final decision; exactly two calls are made. -/
theorem chatbotChat_two_call_cap_witness :
    ((Service.parseLlmResponse
        ((fun (ms : List Msg) =>
          if ms.length ≤ 3 then
            "\x7b\"type\":\"tool_call\",\"tool\":\"search_materials\",\"args\":\x7b\"query\":\"x\"\x7d\x7d"
          else "\x7b\"type\":\"final\",\"message\":\"done\"\x7d")
          (buildMessages ("hi") (some []) none none))).get? ("type") =
      some (Json.str ("tool_call"))) ∧
    (chatbotChat
        (fun ms =>
          if ms.length ≤ 3 then
            "\x7b\"type\":\"tool_call\",\"tool\":\"search_materials\",\"args\":\x7b\"query\":\"x\"\x7d\x7d"
          else "\x7b\"type\":\"final\",\"message\":\"done\"\x7d")
        (fun _ _ => Json.objL [("results", Json.arrL [])]) 0 ("t0")
        ⟨some (Json.str ("hi")), some ("s1"), some [], none⟩).llmCalls.length = 2 := by
  refine ⟨by decide, ?_⟩
  have h := chatbotChat_two_call_cap
    (fun ms =>
      if ms.length ≤ 3 then
        "\x7b\"type\":\"tool_call\",\"tool\":\"search_materials\",\"args\":\x7b\"query\":\"x\"\x7d\x7d"
      else "\x7b\"type\":\"final\",\"message\":\"done\"\x7d")
    (fun _ _ => Json.objL [("results", Json.arrL [])]) 0 ("t0")
    ⟨some (Json.str ("hi")), some ("s1"), some [], none⟩ ("hi") rfl (by decide) (by decide)
  rw [h.1]
  rfl

/-- C3: with a tool_call first decision naming search_materials, the run
makes exactly one tool execution and exactly two LLM calls, and the
second transcript is the first plus one assistant turn holding the
re-serialized tool-call decision and one user turn of the form
"Tool result for search_materials: <JSON-encoded output>" carrying the
literal tool output. -/
theorem chatbotChat_search_tool_round (llm : List Msg → String)
    (toolExec : Option Json → Option Json → Json) (nowMs : Nat) (nowIso : String)
    (body : ChatRequestBody) (s : String) (d : Json)
    (hmsg : body.message = some (Json.str s)) (hne : jsTrim s ≠ "")
    (hd : Service.parseLlmResponse
      (llm (buildMessages s body.conversationHistory body.customInstructions none)) = d)
    (htype : d.get? ("type") = some (Json.str ("tool_call")))
    (htool : d.get? ("tool") = some (Json.str ("search_materials"))) :
    (chatbotChat llm toolExec nowMs nowIso body).toolCalls =
      [(some (Json.str ("search_materials")), d.get? ("args"))] ∧
    (chatbotChat llm toolExec nowMs nowIso body).llmCalls =
      [buildMessages s body.conversationHistory body.customInstructions none,
       buildMessages s body.conversationHistory body.customInstructions none ++
         [Msg.mk ("assistant")
            (jsonStringify (reserializeToolCall (some (Json.str ("search_materials")))
              (d.get? ("args")))),
          Msg.mk ("user")
            ("Tool result for search_materials: " ++
              jsonStringify (toolExec (some (Json.str ("search_materials")))
                (d.get? ("args"))))]] := by
  rw [chatbotChat_tool_path llm toolExec nowMs nowIso body s hmsg hne (by rw [hd]; exact htype)]
  refine ⟨?_, ?_⟩
  · simp [hd, htool]
  · simp only [hd, htool]
    rw [buildMessages_some_toolResult]
    simp [jsTemplateVal]

/-- Witness for C3: concrete search tool round with a singleton result. -/
theorem chatbotChat_search_tool_round_witness :
    ((Service.parseLlmResponse
        ((fun (_ : List Msg) =>
          "\x7b\"type\":\"tool_call\",\"tool\":\"search_materials\",\"args\":\x7b\"query\":\"React hooks\",\"limit\":5\x7d\x7d")
          (buildMessages ("find React hooks") none none none))) =
      Json.objL [("type", Json.str ("tool_call")), ("tool", Json.str ("search_materials")),
        ("args", Json.objL [("query", Json.str ("React hooks")), ("limit", Json.num 5)])]) ∧
    (chatbotChat
        (fun _ =>
          "\x7b\"type\":\"tool_call\",\"tool\":\"search_materials\",\"args\":\x7b\"query\":\"React hooks\",\"limit\":5\x7d\x7d")
        (fun _ _ => Json.objL [("results", Json.arrL [])]) 0 ("t0")
        ⟨some (Json.str ("find React hooks")), none, none, none⟩).toolCalls =
      [(some (Json.str ("search_materials")),
        (Json.objL [("type", Json.str ("tool_call")), ("tool", Json.str ("search_materials")),
          ("args", Json.objL [("query", Json.str ("React hooks")), ("limit", Json.num 5)])]).get?
          ("args"))] ∧
    (chatbotChat
        (fun _ =>
          "\x7b\"type\":\"tool_call\",\"tool\":\"search_materials\",\"args\":\x7b\"query\":\"React hooks\",\"limit\":5\x7d\x7d")
        (fun _ _ => Json.objL [("results", Json.arrL [])]) 0 ("t0")
        ⟨some (Json.str ("find React hooks")), none, none, none⟩).llmCalls =
      [buildMessages ("find React hooks") none none none,
       buildMessages ("find React hooks") none none none ++
         [Msg.mk ("assistant")
            (jsonStringify (reserializeToolCall (some (Json.str ("search_materials")))
              ((Json.objL [("type", Json.str ("tool_call")),
                ("tool", Json.str ("search_materials")),
                ("args", Json.objL [("query", Json.str ("React hooks")),
                  ("limit", Json.num 5)])]).get? ("args")))),
          Msg.mk ("user")
            ("Tool result for search_materials: " ++
              jsonStringify ((fun (_ _ : Option Json) => Json.objL [("results", Json.arrL [])])
                (some (Json.str ("search_materials")))
                ((Json.objL [("type", Json.str ("tool_call")),
                  ("tool", Json.str ("search_materials")),
                  ("args", Json.objL [("query", Json.str ("React hooks")),
                    ("limit", Json.num 5)])]).get? ("args"))))]] :=
  ⟨by decide,
   chatbotChat_search_tool_round _ _ 0 ("t0") _ ("find React hooks") _ rfl (by decide)
     (by decide) (by decide) (by decide)⟩

/-- C8 counterexample: a run with the unknown tool "bogus_tool" whose
second LLM reply is the raw text "null".  The unknown-tool payload itself
is produced without throwing and is injected into the second LLM call
(both calls happen, the tool error is not fatal), but the turn then ends
in the 500 server error — property access on the null second decision
throws — so the unconditional "the turn still ends in a normal chat
response and not a server error" is false. -/
theorem executeTool_unknown_tool_second_null_counterexample :
    (executeTool (fun _ => Json.null) 0 (some (Json.str ("bogus_tool")))
        (some (Json.objL [])) =
      Json.objL [("error", Json.str ("Unknown tool: bogus_tool"))]) ∧
    (chatbotChat
        (fun ms =>
          if ms.length ≤ 2 then
            "\x7b\"type\":\"tool_call\",\"tool\":\"bogus_tool\",\"args\":\x7b\x7d\x7d"
          else "null")
        (executeTool (fun _ => Json.null) 0) 0 ("t0")
        ⟨some (Json.str ("hi")), none, none, none⟩).llmCalls.length = 2 ∧
    ((chatbotChat
        (fun ms =>
          if ms.length ≤ 2 then
            "\x7b\"type\":\"tool_call\",\"tool\":\"bogus_tool\",\"args\":\x7b\x7d\x7d"
          else "null")
        (executeTool (fun _ => Json.null) 0) 0 ("t0")
        ⟨some (Json.str ("hi")), none, none, none⟩).llmCalls.getD 1 []).getLast? =
      some (Msg.mk ("user")
        ("Tool result for bogus_tool: \x7b\"error\":\"Unknown tool: bogus_tool\"\x7d")) ∧
    (chatbotChat
        (fun ms =>
          if ms.length ≤ 2 then
            "\x7b\"type\":\"tool_call\",\"tool\":\"bogus_tool\",\"args\":\x7b\x7d\x7d"
          else "null")
        (executeTool (fun _ => Json.null) 0) 0 ("t0")
        ⟨some (Json.str ("hi")), none, none, none⟩).result =
      Sum.inl ⟨"Chat request failed"⟩ :=
  ⟨by decide, by decide, by decide, by decide⟩

/-- C8 (amended): an unknown tool name yields the error payload
(error: "Unknown tool: <name>") without failing; chatbotChat injects that
payload back into the second LLM call as ordinary tool-result content —
the unknown tool is never treated as a fatal failure — and the turn ends
in a normal chat response whenever the second reply parses to a non-null
decision (a null second reply yields the generic 500, exactly as it would
for a known tool). -/
theorem executeTool_unknown_tool_injected (search : Option Json → Json)
    (llm : List Msg → String) (nowMs : Nat) (nowIso : String)
    (body : ChatRequestBody) (s t : String) (d : Json)
    (ht1 : t ≠ "search_materials") (ht2 : t ≠ "request_material_addition")
    (hmsg : body.message = some (Json.str s)) (hne : jsTrim s ≠ "")
    (hd : Service.parseLlmResponse
      (llm (buildMessages s body.conversationHistory body.customInstructions none)) = d)
    (htype : d.get? ("type") = some (Json.str ("tool_call")))
    (htool : d.get? ("tool") = some (Json.str t))
    (hd2 : Service.parseLlmResponse
      (llm (buildMessages s body.conversationHistory body.customInstructions
        (some ⟨some (Json.str t), d.get? ("args"),
          executeTool search nowMs (some (Json.str t)) (d.get? ("args"))⟩))) ≠ Json.null) :
    executeTool search nowMs (some (Json.str t)) (d.get? ("args")) =
      Json.objL [("error", Json.str ("Unknown tool: " ++ t))] ∧
    (chatbotChat llm (executeTool search nowMs) nowMs nowIso body).llmCalls.length = 2 ∧
    (∃ r, (chatbotChat llm (executeTool search nowMs) nowMs nowIso body).result = Sum.inr r) ∧
    (chatbotChat llm (executeTool search nowMs) nowMs nowIso body).llmCalls =
      [buildMessages s body.conversationHistory body.customInstructions none,
       buildMessages s body.conversationHistory body.customInstructions none ++
         [Msg.mk ("assistant")
            (jsonStringify (reserializeToolCall (some (Json.str t)) (d.get? ("args")))),
          Msg.mk ("user")
            ("Tool result for " ++ t ++ ": " ++
              jsonStringify (Json.objL [("error", Json.str ("Unknown tool: " ++ t))]))]] := by
  have hexec : executeTool search nowMs (some (Json.str t)) (d.get? ("args")) =
      Json.objL [("error", Json.str ("Unknown tool: " ++ t))] := by
    simp [executeTool, ht1, ht2, jsTemplateVal]
  have hd2b : Service.parseLlmResponse
      (llm (buildMessages s body.conversationHistory body.customInstructions
        (some ⟨(Service.parseLlmResponse
            (llm (buildMessages s body.conversationHistory body.customInstructions none))).get?
              ("tool"),
          (Service.parseLlmResponse
            (llm (buildMessages s body.conversationHistory body.customInstructions none))).get?
              ("args"),
          executeTool search nowMs
            ((Service.parseLlmResponse
              (llm (buildMessages s body.conversationHistory body.customInstructions none))).get?
                ("tool"))
            ((Service.parseLlmResponse
              (llm (buildMessages s body.conversationHistory body.customInstructions none))).get?
                ("args"))⟩))) ≠ Json.null := by
    rw [hd, htool]
    exact hd2
  refine ⟨hexec, ?_, ?_, ?_⟩ <;>
    rw [chatbotChat_tool_path llm (executeTool search nowMs) nowMs nowIso body s hmsg hne
      (by rw [hd]; exact htype)]
  · rfl
  · simp only [Json.getProp_of_ne_null _ hd2b]
    exact ⟨_, rfl⟩
  · simp only [hd, htool, hexec]
    rw [buildMessages_some_toolResult]
    simp [jsTemplateVal]

/-- Witness for C8 at the unknown tool name "bogus_tool". -/
theorem executeTool_unknown_tool_injected_witness :
    (executeTool (fun _ => Json.null) 0 (some (Json.str ("bogus_tool")))
        ((Json.objL [("type", Json.str ("tool_call")), ("tool", Json.str ("bogus_tool")),
          ("args", Json.objL [])]).get? ("args")) =
      Json.objL [("error", Json.str ("Unknown tool: bogus_tool"))]) ∧
    (chatbotChat
        (fun _ => "\x7b\"type\":\"tool_call\",\"tool\":\"bogus_tool\",\"args\":\x7b\x7d\x7d")
        (executeTool (fun _ => Json.null) 0) 0 ("t0")
        ⟨some (Json.str ("hi")), none, none, none⟩).llmCalls.length = 2 ∧
    (∃ r, (chatbotChat
        (fun _ => "\x7b\"type\":\"tool_call\",\"tool\":\"bogus_tool\",\"args\":\x7b\x7d\x7d")
        (executeTool (fun _ => Json.null) 0) 0 ("t0")
        ⟨some (Json.str ("hi")), none, none, none⟩).result = Sum.inr r) := by
  have h := executeTool_unknown_tool_injected (fun _ => Json.null)
    (fun _ => "\x7b\"type\":\"tool_call\",\"tool\":\"bogus_tool\",\"args\":\x7b\x7d\x7d")
    0 ("t0") ⟨some (Json.str ("hi")), none, none, none⟩ ("hi") ("bogus_tool")
    (Json.objL [("type", Json.str ("tool_call")), ("tool", Json.str ("bogus_tool")),
      ("args", Json.objL [])])
    (by decide) (by decide) rfl (by decide) (by decide) (by decide) (by decide) (by decide)
  exact ⟨h.1, h.2.1, h.2.2.1⟩

set_option maxRecDepth 4096 in
/-- C2 (code-bug evidence): at the prose input "This is not valid JSON"
the parser of src/services/service.js returns the raw text as the final
message with empty suggestedActions, while the parser of
src/unnamed/part_005 — the behavior the claim, the spec and the test
suite (src/__tests__/chatbotChat.test.js) describe — returns the fixed
apology decision with suggestedActions try_again and contact_support. -/
theorem parseLlmResponse_prose_fallback_divergence :
    Service.parseLlmResponse ("This is not valid JSON") =
      Json.objL [("type", Json.str ("final")),
        ("message", Json.str ("This is not valid JSON")),
        ("relatedMaterials", Json.arrL []), ("suggestedActions", Json.arrL [])] ∧
    Orchestrator.parseLlmResponse ("This is not valid JSON") =
      Orchestrator.apologyFallback ∧
    Json.str ("This is not valid JSON") ≠ Json.str Orchestrator.apologyText :=
  ⟨by decide, by decide, by decide⟩

/-- C10 counterexample: a parsed decision with unrecognized type "other"
and the present but falsy message field 0.  The parser returns the object
unchanged and exactly one LLM call is made, but the response message is
the empty string, not the present message field 0 (JavaScript `||`
replaces every falsy field). -/
theorem chatbotChat_falsy_message_field_counterexample :
    Service.parseLlmResponse ("\x7b\"type\":\"other\",\"message\":0\x7d") =
      Json.objL [("type", Json.str ("other")), ("message", Json.num 0)] ∧
    (chatbotChat (fun _ => "\x7b\"type\":\"other\",\"message\":0\x7d") (fun _ _ => Json.null)
        0 ("t0") ⟨some (Json.str ("hi")), some ("s1"), none, none⟩).llmCalls.length = 1 ∧
    (chatbotChat (fun _ => "\x7b\"type\":\"other\",\"message\":0\x7d") (fun _ _ => Json.null)
        0 ("t0") ⟨some (Json.str ("hi")), some ("s1"), none, none⟩).toolCalls = [] ∧
    (chatbotChat (fun _ => "\x7b\"type\":\"other\",\"message\":0\x7d") (fun _ _ => Json.null)
        0 ("t0") ⟨some (Json.str ("hi")), some ("s1"), none, none⟩).result =
      Sum.inr ⟨Json.str (""), Json.arrL [], Json.arrL [], "s1", "t0"⟩ ∧
    Json.str ("") ≠ Json.num 0 :=
  ⟨by decide, by decide, by decide, by decide, by decide⟩

/-- C10 (amended): when the first reply parses as valid JSON, other than
the bare JSON null (on which property access throws and the turn becomes
the 500 server error), whose type field is missing or neither final nor
tool_call, parseLlmResponse returns the parsed value unchanged,
chatbotChat makes exactly one LLM call and no tool execution, and the 200
response carries the message field when it is present and truthy
(JavaScript `||`), else the empty string. -/
theorem chatbotChat_unrecognized_type_final_path (llm : List Msg → String)
    (toolExec : Option Json → Option Json → Json) (nowMs : Nat) (nowIso : String)
    (body : ChatRequestBody) (s : String) (d : Json)
    (hmsg : body.message = some (Json.str s)) (hne : jsTrim s ≠ "")
    (hparse : parseLlmTry
      (llm (buildMessages s body.conversationHistory body.customInstructions none)) = some d)
    (hnn : d ≠ Json.null)
    (htype : d.get? ("type") = none ∨
      ∃ t, d.get? ("type") = some t ∧ t ≠ Json.str ("final") ∧ t ≠ Json.str ("tool_call")) :
    Service.parseLlmResponse
      (llm (buildMessages s body.conversationHistory body.customInstructions none)) = d ∧
    (chatbotChat llm toolExec nowMs nowIso body).llmCalls.length = 1 ∧
    (chatbotChat llm toolExec nowMs nowIso body).toolCalls = [] ∧
    ∃ r, (chatbotChat llm toolExec nowMs nowIso body).result = Sum.inr r ∧
      r.message =
        (match d.get? ("message") with
         | some v => if jsTruthy v then v else Json.str ("")
         | none => Json.str ("")) := by
  have h1 : Service.parseLlmResponse
      (llm (buildMessages s body.conversationHistory body.customInstructions none)) = d := by
    unfold Service.parseLlmResponse
    rw [hparse]
    rfl
  have hnott : ¬((Service.parseLlmResponse
      (llm (buildMessages s body.conversationHistory body.customInstructions none))).get?
        ("type") = some (Json.str ("tool_call"))) := by
    rw [h1]
    rcases htype with htype | ⟨t, ht, _, ht2⟩
    · rw [htype]; intro hcon; cases hcon
    · rw [ht]; intro hcon; exact ht2 (Option.some.injEq _ _ ▸ hcon)
  have hnn1 : Service.parseLlmResponse
      (llm (buildMessages s body.conversationHistory body.customInstructions none)) ≠
        Json.null := by
    rw [h1]; exact hnn
  rw [chatbotChat_final_path llm toolExec nowMs nowIso body s hmsg hne hnn1 hnott, h1]
  refine ⟨rfl, rfl, rfl, mkChatResponse d body.sessionId nowMs nowIso, rfl, ?_⟩
  cases hm : d.get? ("message") with
  | none => simp [mkChatResponse, jsOr, hm]
  | some v => simp [mkChatResponse, jsOr, hm]

/-- Witness for C10 (amended) at type "other" with truthy message "x". -/
theorem chatbotChat_unrecognized_type_final_path_witness :
    (parseLlmTry ((fun (_ : List Msg) => "\x7b\"type\":\"other\",\"message\":\"x\"\x7d")
        (buildMessages ("hi") none none none)) =
      some (Json.objL [("type", Json.str ("other")), ("message", Json.str ("x"))])) ∧
    (Service.parseLlmResponse
      ((fun (_ : List Msg) => "\x7b\"type\":\"other\",\"message\":\"x\"\x7d")
        (buildMessages ("hi") none none none)) =
      Json.objL [("type", Json.str ("other")), ("message", Json.str ("x"))] ∧
    (chatbotChat (fun _ => "\x7b\"type\":\"other\",\"message\":\"x\"\x7d") (fun _ _ => Json.null)
        0 ("t0") ⟨some (Json.str ("hi")), none, none, none⟩).llmCalls.length = 1 ∧
    (chatbotChat (fun _ => "\x7b\"type\":\"other\",\"message\":\"x\"\x7d") (fun _ _ => Json.null)
        0 ("t0") ⟨some (Json.str ("hi")), none, none, none⟩).toolCalls = [] ∧
    ∃ r, (chatbotChat (fun _ => "\x7b\"type\":\"other\",\"message\":\"x\"\x7d")
        (fun _ _ => Json.null)
        0 ("t0") ⟨some (Json.str ("hi")), none, none, none⟩).result = Sum.inr r ∧
      r.message =
        (match (Json.objL [("type", Json.str ("other")),
            ("message", Json.str ("x"))]).get? ("message") with
         | some v => if jsTruthy v then v else Json.str ("")
         | none => Json.str (""))) :=
  ⟨by decide,
   chatbotChat_unrecognized_type_final_path
     (fun _ => "\x7b\"type\":\"other\",\"message\":\"x\"\x7d") (fun _ _ => Json.null) 0 ("t0")
     ⟨some (Json.str ("hi")), none, none, none⟩ ("hi")
     (Json.objL [("type", Json.str ("other")), ("message", Json.str ("x"))])
     rfl (by decide) (by decide) (by decide)
     (Or.inr ⟨Json.str ("other"), by decide, by decide, by decide⟩)⟩

/-- C9 counterexample: the parser output for a crafted raw text carries a
literal think block inside its message string (the single-pass regex
replacement can create one).  Its re-serialization is valid JSON parsing
back to exactly the same object, yet parseLlmResponse strips the think
block again and returns a different decision. -/
theorem parse_after_serialize_counterexample :
    jsonParse (jsonStringify (Service.parseLlmResponse
        ("\x7b\"type\":\"final\",\"message\":\"a<th<think>z</think>ink>b</think>c\"\x7d"))) =
      some (Service.parseLlmResponse
        ("\x7b\"type\":\"final\",\"message\":\"a<th<think>z</think>ink>b</think>c\"\x7d")) ∧
    Service.parseLlmResponse (jsonStringify (Service.parseLlmResponse
        ("\x7b\"type\":\"final\",\"message\":\"a<th<think>z</think>ink>b</think>c\"\x7d"))) ≠
      Service.parseLlmResponse
        ("\x7b\"type\":\"final\",\"message\":\"a<th<think>z</think>ink>b</think>c\"\x7d") :=
  ⟨by decide, by decide⟩

/-- Helper: trimming leaves a brace-delimited string unchanged. -/
theorem jsTrimL_wrapped (m : List Char) :
    jsTrimL ('{' :: (m ++ ['}'])) = '{' :: (m ++ ['}']) := by
  have h1 : isJsWs '{' = false := by decide
  have h2 : isJsWs '}' = false := by decide
  simp [jsTrimL, List.dropWhile_cons, h1, h2, List.reverse_append]

/-- Helper: the brace match of a string that starts with an opening brace
and ends with a closing brace is the whole string. -/
theorem braceMatchL_wrapped (m : List Char) :
    braceMatchL ('{' :: (m ++ ['}'])) = some ('{' :: (m ++ ['}'])) := by
  simp [braceMatchL, List.dropWhile_cons, List.reverse_append]

/-- C9 (amended): parse after serialize is the identity on object-shaped
parser outputs whose re-serialization is valid JSON of the same shape,
provided the re-serialized text contains no think block for the stripping
regex to remove (the counterexample shows the identity fails otherwise). -/
theorem parseLlmResponse_roundtrip_no_think (fields : JsonObj)
    (hthink : stripThink (jsonStringify (Json.obj fields)) = jsonStringify (Json.obj fields))
    (hparse : jsonParse (jsonStringify (Json.obj fields)) = some (Json.obj fields)) :
    Service.parseLlmResponse (jsonStringify (Json.obj fields)) = Json.obj fields := by
  have hdata : (jsonStringify (Json.obj fields)).data =
      '{' :: ((stringifyObj fields).data ++ ['}']) := by
    show (("\x7b" ++ stringifyObj fields ++ "\x7d") : String).data = _
    rw [String.data_append, String.data_append]
    rfl
  have hstrip : stripThinkL (jsonStringify (Json.obj fields)).data.length
      (jsonStringify (Json.obj fields)).data = (jsonStringify (Json.obj fields)).data :=
    congrArg String.data hthink
  have hp : jsonParseL ('{' :: ((stringifyObj fields).data ++ ['}'])) =
      some (Json.obj fields) := by
    rw [← hdata]
    exact hparse
  unfold Service.parseLlmResponse parseLlmTry
  rw [hstrip, hdata, jsTrimL_wrapped]
  simp only [braceMatchL_wrapped, hp, Option.getD_some]

/-- Witness for C9 (amended) at a two-field final decision. -/
theorem parseLlmResponse_roundtrip_no_think_witness :
    (stripThink (jsonStringify (Json.obj (JsonObj.cons ("type") (Json.str ("final"))
        (JsonObj.cons ("message") (Json.str ("ok")) JsonObj.nil)))) =
      jsonStringify (Json.obj (JsonObj.cons ("type") (Json.str ("final"))
        (JsonObj.cons ("message") (Json.str ("ok")) JsonObj.nil)))) ∧
    (jsonParse (jsonStringify (Json.obj (JsonObj.cons ("type") (Json.str ("final"))
        (JsonObj.cons ("message") (Json.str ("ok")) JsonObj.nil)))) =
      some (Json.obj (JsonObj.cons ("type") (Json.str ("final"))
        (JsonObj.cons ("message") (Json.str ("ok")) JsonObj.nil)))) ∧
    Service.parseLlmResponse (jsonStringify (Json.obj (JsonObj.cons ("type")
        (Json.str ("final")) (JsonObj.cons ("message") (Json.str ("ok")) JsonObj.nil)))) =
      Json.obj (JsonObj.cons ("type") (Json.str ("final"))
        (JsonObj.cons ("message") (Json.str ("ok")) JsonObj.nil)) :=
  ⟨by decide, by decide,
   parseLlmResponse_roundtrip_no_think _ (by decide) (by decide)⟩

/-- C6: on a non-empty embedded-node collection and positive limit, the
search result list has at most limit entries, is sorted by descending
similarity, and equals the truncation of the index-decorated stable sort,
whose pairwise order shows that equal scores keep the original retrieval
order. -/
theorem searchNodesBySimilarity_sorted_stable_truncated
    (records : List EmbRecord) (queryEmbedding : List ℚ) (limit : Nat)
    (hne : records ≠ []) (hpos : 0 < limit) :
    (searchNodesBySimilarity records queryEmbedding limit).length ≤ limit ∧
    (searchNodesBySimilarity records queryEmbedding limit).Pairwise
      (fun a b => b.similarity ≤ a.similarity) ∧
    searchNodesBySimilarity records queryEmbedding limit =
      ((sortByDesc (fun p => p.2.similarity)
        ((records.map (fun r => ScoredNode.mk r.node
          (dotReduce r.embedding queryEmbedding))).enum)).map Prod.snd).take limit ∧
    (sortByDesc (fun p => p.2.similarity)
        ((records.map (fun r => ScoredNode.mk r.node
          (dotReduce r.embedding queryEmbedding))).enum)).Pairwise
      (fun p q => q.2.similarity < p.2.similarity ∨
        (p.2.similarity = q.2.similarity ∧ p.1 < q.1)) := by
  refine ⟨?_, ?_, ?_, ?_⟩
  · exact List.length_take_le _ _
  · exact (pairwise_sortByDesc_le _).sublist (List.take_sublist _ _)
  · unfold searchNodesBySimilarity
    rw [map_snd_sortByDesc, List.enum_map_snd]
  · exact pairwise_sortByDesc_lex _ (pairwise_fst_lt_enum _)

/-- Witness for C6 on three records with a tied top score and limit 2. -/
theorem searchNodesBySimilarity_sorted_stable_truncated_witness :
    ([(⟨⟨"a", "na", "Skill"⟩, [1, 0]⟩ : EmbRecord), ⟨⟨"b", "nb", "URL"⟩, [0, 1]⟩,
        ⟨⟨"c", "nc", "Skill"⟩, [1, 0]⟩] ≠ []) ∧
    0 < 2 ∧
    (searchNodesBySimilarity
      [⟨⟨"a", "na", "Skill"⟩, [1, 0]⟩, ⟨⟨"b", "nb", "URL"⟩, [0, 1]⟩,
        ⟨⟨"c", "nc", "Skill"⟩, [1, 0]⟩] [1, 0] 2).length ≤ 2 ∧
    (searchNodesBySimilarity
      [⟨⟨"a", "na", "Skill"⟩, [1, 0]⟩, ⟨⟨"b", "nb", "URL"⟩, [0, 1]⟩,
        ⟨⟨"c", "nc", "Skill"⟩, [1, 0]⟩] [1, 0] 2).Pairwise
      (fun a b => b.similarity ≤ a.similarity) ∧
    searchNodesBySimilarity
      [⟨⟨"a", "na", "Skill"⟩, [1, 0]⟩, ⟨⟨"b", "nb", "URL"⟩, [0, 1]⟩,
        ⟨⟨"c", "nc", "Skill"⟩, [1, 0]⟩] [1, 0] 2 =
      [⟨⟨"a", "na", "Skill"⟩, 1⟩, ⟨⟨"c", "nc", "Skill"⟩, 1⟩] := by
  have h := searchNodesBySimilarity_sorted_stable_truncated
    [⟨⟨"a", "na", "Skill"⟩, [1, 0]⟩, ⟨⟨"b", "nb", "URL"⟩, [0, 1]⟩,
      ⟨⟨"c", "nc", "Skill"⟩, [1, 0]⟩] [1, 0] 2 (by simp) (by decide)
  refine ⟨by simp, by decide, h.1, h.2.1, ?_⟩
  norm_num [searchNodesBySimilarity, sortByDesc, insertByDesc, dotReduce]
